import Mathlib

set_option linter.unusedVariables false

/-!
# Signal handling exercises: `alarm.c` and `signals.c`

A shallow embedding of the two programs of the repository.

Integer model (Linux LP64): `unsigned int` is a natural number below `2^32`,
`time_t` is a signed 64-bit integer, `int` a signed 32-bit integer.  Signed
arithmetic whose result is representable is the exact integer operation
(signed overflow is undefined in C and is not given a meaning here); every
conversion to `unsigned int` is written as an explicit reduction modulo `2^32`.
The loop counters `iteracion` and `contador` only count upwards from 0 and are
natural numbers.

Signals are asynchronous: a run of a program is a sequence of events, each
being the delivery of a signal (its handler starts, possibly inside another
handler), one statement of the innermost active handler, or one statement of
`main`.  Time is not part of the model: `sleep` returns at some later event.
-/

/-- Number of values of an `unsigned int`. -/
def UINT_MOD : Int := 4294967296

/-- Conversion of a (signed, wider) integer to `unsigned int`. -/
def a_unsigned (x : Int) : Nat := (x % UINT_MOD).toNat

namespace Alarm

/-- Signals for which alarm.c installs a handler. -/
inductive Senal
  | SIGALRM
  | SIGINT
  deriving DecidableEq

/-- Exit status of the process. -/
inductive Salida
  | EXIT_SUCCESS
  | EXIT_FAILURE
  deriving DecidableEq

/-- Outcome reported after the loop (alarm.c lines 175-183): the branch of
line 176 ("termino por la alarma") or the branch of line 179 ("interrumpido
manualmente"). -/
inductive Resultado
  | TimedOut
  | Interrupted
  deriving DecidableEq

/-- Initial value of `g_segundos_alarma` (alarm.c line 18). -/
def g_segundos_alarma_defecto : Nat := 10

/-- `obtener_tiempo_restante` (alarm.c lines 79-88).  `tiempo_actual` is the
value returned by `time(NULL)`.  The comparison is made in `time_t` (the
`unsigned int` operand is promoted to the signed 64-bit type), the subtraction
of line 87 as well, and the result is converted to the `unsigned int` return
type. -/
def obtener_tiempo_restante (g_segundos_alarma : Nat) (g_tiempo_inicio tiempo_actual : Int) : Nat :=
  let transcurrido : Int := tiempo_actual - g_tiempo_inicio
  if transcurrido ≥ (g_segundos_alarma : Int) then
    0
  else
    a_unsigned ((g_segundos_alarma : Int) - transcurrido)

/-- The two numbers printed by the last `printf` of `mostrar_progreso`
(alarm.c line 111): `g_segundos_alarma - restante`, an `unsigned int`
subtraction, and `g_segundos_alarma`.  The floating point bar of lines 96-110
is output only and is not modelled. -/
def mostrar_progreso (g_segundos_alarma restante : Nat) : Nat × Nat :=
  (a_unsigned ((g_segundos_alarma : Int) - (restante : Int)), g_segundos_alarma)

/-- What `configurar_manejadores_senales` did: the value it returned, the
signals on which `sigaction` was called (in call order) and the signals whose
handler is installed afterwards. -/
structure Registro where
  retorno : Int
  llamadas : List Senal
  instalados : List Senal
  deriving DecidableEq

/-- `configurar_manejadores_senales` (alarm.c lines 47-73).  The argument is
the platform: the value `sigaction` returns for each signal (0 on success, -1
when the binding is refused). -/
def configurar_manejadores_senales (sigaction : Senal → Int) : Registro :=
  if sigaction Senal.SIGALRM = -1 then
    { retorno := -1, llamadas := [Senal.SIGALRM], instalados := [] }
  else if sigaction Senal.SIGINT = -1 then
    { retorno := -1, llamadas := [Senal.SIGALRM, Senal.SIGINT], instalados := [Senal.SIGALRM] }
  else
    { retorno := 0, llamadas := [Senal.SIGALRM, Senal.SIGINT],
      instalados := [Senal.SIGALRM, Senal.SIGINT] }

/-- Activation record of a signal handler, named after the statement it is
about to execute: `manejador_sigalrm` is `write` (line 27) then
`g_alarma_disparada = 1` (line 28); `manejador_sigint` is `write` (line 36),
`alarm(0)` (line 39), `g_interrumpido = 1` (line 40). -/
inductive Marco
  | alrm_write
  | alrm_flag
  | int_write
  | int_alarm0
  | int_flag
  deriving DecidableEq

/-- Signal whose handler a frame belongs to. -/
def Marco.senal : Marco → Senal
  | Marco.alrm_write => Senal.SIGALRM
  | Marco.alrm_flag => Senal.SIGALRM
  | Marco.int_write => Senal.SIGINT
  | Marco.int_alarm0 => Senal.SIGINT
  | Marco.int_flag => Senal.SIGINT

/-- Control points of `main` once the handlers are registered:
`armar` is lines 145-158 (records the start time and calls `alarm`),
`mientras_alarma` and `mientras_int` are the two operands of the loop
condition of line 162, `cuerpo` is the loop body (lines 163-170),
`si_alarma` is the test of line 175, `si_int` the test of line 178, `final`
is lines 185-188 and `terminado` is the process after `return`. -/
inductive Pc
  | armar
  | mientras_alarma
  | mientras_int
  | cuerpo
  | si_alarma
  | si_int
  | final
  | terminado
  deriving DecidableEq

/-- State of the running process: the two flags, the one-shot timer of
`alarm()` (pending or not), the loop counter, the outcome already reported,
the control point of `main` and the stack of interrupted handler activations
(innermost first). -/
structure Estado where
  g_segundos_alarma : Nat
  g_alarma_disparada : Nat
  g_interrumpido : Nat
  alarma_pendiente : Bool
  iteracion : Nat
  resultado : Option Resultado
  pc : Pc
  pila : List Marco
  deriving DecidableEq

/-- What can happen next: a signal is delivered (its handler starts), the
running handler of a signal executes its next statement, or `main` executes
its next statement. -/
inductive Evento
  | entrega (sig : Senal)
  | manejador (sig : Senal)
  | principal
  deriving DecidableEq

/-- A signal is blocked while its own handler is active (`sa_mask` is empty
and `sa_flags` is 0, lines 53-54 and 64-65, so nothing else is blocked). -/
def bloqueada (sig : Senal) (pila : List Marco) : Bool :=
  pila.any (fun m => decide (m.senal = sig))

/-- One statement of `manejador_sigalrm` (alarm.c lines 25-29); `resto` is
the stack below the frame. -/
def manejador_sigalrm (s : Estado) (resto : List Marco) : Marco → Option Estado
  | Marco.alrm_write => some { s with pila := Marco.alrm_flag :: resto }
  | Marco.alrm_flag => some { s with g_alarma_disparada := 1, pila := resto }
  | _ => none

/-- One statement of `manejador_sigint` (alarm.c lines 34-41); `alarm(0)`
cancels the pending timer. -/
def manejador_sigint (s : Estado) (resto : List Marco) : Marco → Option Estado
  | Marco.int_write => some { s with pila := Marco.int_alarm0 :: resto }
  | Marco.int_alarm0 => some { s with alarma_pendiente := false, pila := Marco.int_flag :: resto }
  | Marco.int_flag => some { s with g_interrumpido := 1, pila := resto }
  | _ => none

/-- One statement of `main` from line 145 on (alarm.c lines 145-188). -/
def main_paso (s : Estado) : Option Estado :=
  match s.pc with
  | Pc.armar =>
      some { s with alarma_pendiente := decide (s.g_segundos_alarma ≠ 0), pc := Pc.mientras_alarma }
  | Pc.mientras_alarma =>
      if s.g_alarma_disparada ≠ 0 then some { s with pc := Pc.si_alarma }
      else some { s with pc := Pc.mientras_int }
  | Pc.mientras_int =>
      if s.g_interrumpido ≠ 0 then some { s with pc := Pc.si_alarma }
      else some { s with pc := Pc.cuerpo }
  | Pc.cuerpo =>
      some { s with iteracion := s.iteracion + 1, pc := Pc.mientras_alarma }
  | Pc.si_alarma =>
      if s.g_alarma_disparada ≠ 0 then
        some { s with resultado := some Resultado.TimedOut, pc := Pc.final }
      else some { s with pc := Pc.si_int }
  | Pc.si_int =>
      if s.g_interrumpido ≠ 0 then
        some { s with resultado := some Resultado.Interrupted, pc := Pc.final }
      else some { s with pc := Pc.final }
  | Pc.final => some { s with pc := Pc.terminado }
  | Pc.terminado => none

/-- Step relation of the process, as a function: `none` when the event cannot
happen in the state.  SIGALRM is delivered only when the timer is pending, and
delivery consumes the timer; a signal is not delivered while blocked or after
the process has ended; a handler statement runs only when that handler is the
innermost activation; `main` runs only when no handler is active. -/
def paso (s : Estado) : Evento → Option Estado
  | Evento.entrega sig =>
      if s.pc = Pc.terminado ∨ bloqueada sig s.pila = true then none
      else
        match sig with
        | Senal.SIGALRM =>
            if s.alarma_pendiente = true then
              some { s with alarma_pendiente := false, pila := Marco.alrm_write :: s.pila }
            else none
        | Senal.SIGINT => some { s with pila := Marco.int_write :: s.pila }
  | Evento.manejador sig =>
      match s.pila with
      | [] => none
      | m :: resto =>
          if m.senal = sig then
            match sig with
            | Senal.SIGALRM => manejador_sigalrm s resto m
            | Senal.SIGINT => manejador_sigint s resto m
          else none
  | Evento.principal =>
      match s.pila with
      | [] => main_paso s
      | _ :: _ => none

/-- Run a sequence of events. -/
def ejecutar (s : Estado) : List Evento → Option Estado
  | [] => some s
  | e :: es => (paso s e).bind (fun t => ejecutar t es)

/-- State of the process right after both handlers are registered (line 143):
flags at their initial value 0 (lines 14-15), timer not armed yet. -/
def estado_inicial (g_segundos_alarma : Nat) : Estado :=
  { g_segundos_alarma := g_segundos_alarma, g_alarma_disparada := 0, g_interrumpido := 0,
    alarma_pendiente := false, iteracion := 0, resultado := none, pc := Pc.armar, pila := [] }

/-- Observable summary of a process of alarm.c. -/
structure Proceso where
  salida : Option Salida
  g_segundos_alarma : Nat
  llamadas_sigaction : List Senal
  instalados : List Senal
  alarma_armada : Bool
  iteracion : Nat
  resultado : Option Resultado
  deriving DecidableEq

/-- Startup of `main` (alarm.c lines 129-143): `argv1` is `atoi(argv[1])` when
an argument was supplied.  Returns the process that ended with
`exit(EXIT_FAILURE)`, or the timeout and the registration performed. -/
def main_arranque (argv1 : Option Int) (sigaction : Senal → Int) : Except Proceso (Nat × Registro) :=
  let fallo (g : Nat) (llamadas instalados : List Senal) : Proceso :=
    { salida := some Salida.EXIT_FAILURE, g_segundos_alarma := g, llamadas_sigaction := llamadas,
      instalados := instalados, alarma_armada := false, iteracion := 0, resultado := none }
  let continuar (g : Nat) : Except Proceso (Nat × Registro) :=
    let r := configurar_manejadores_senales sigaction
    if r.retorno = -1 then Except.error (fallo g r.llamadas r.instalados)
    else Except.ok (g, r)
  match argv1 with
  | some segundos_entrada =>
      if segundos_entrada ≤ 0 ∨ segundos_entrada > 3600 then
        Except.error (fallo g_segundos_alarma_defecto [] [])
      else continuar (a_unsigned segundos_entrada)
  | none => continuar g_segundos_alarma_defecto

/-- The program `main` of alarm.c: startup, then the events `tr` happen.  A
process that ended during startup is not affected by later events.  The result
is `none` when `tr` is not a possible sequence of events. -/
def main (argv1 : Option Int) (sigaction : Senal → Int) (tr : List Evento) : Option Proceso :=
  match main_arranque argv1 sigaction with
  | Except.error p => some p
  | Except.ok (g, r) =>
      (ejecutar (estado_inicial g) tr).map (fun s =>
        { salida := if s.pc = Pc.terminado then some Salida.EXIT_SUCCESS else none,
          g_segundos_alarma := g, llamadas_sigaction := r.llamadas, instalados := r.instalados,
          alarma_armada := decide (s.pc ≠ Pc.armar), iteracion := s.iteracion,
          resultado := s.resultado })

/-- A platform on which every `sigaction` call succeeds. -/
def sigaction_ok : Senal → Int := fun _ => 0

/-- A platform that refuses the handler of SIGINT. -/
def sigaction_sin_sigint : Senal → Int
  | Senal.SIGALRM => 0
  | Senal.SIGINT => -1

/-- Example state: both flags set while `main` is in the loop body. -/
def ejemplo_ambas : Estado :=
  { g_segundos_alarma := 10, g_alarma_disparada := 1, g_interrumpido := 1,
    alarma_pendiente := false, iteracion := 3, resultado := none, pc := Pc.cuerpo, pila := [] }

/-- Example state: as `ejemplo_ambas`, a further SIGINT just delivered. -/
def ejemplo_ambas_int : Estado :=
  { g_segundos_alarma := 10, g_alarma_disparada := 1, g_interrumpido := 1,
    alarma_pendiente := false, iteracion := 3, resultado := none, pc := Pc.cuerpo,
    pila := [Marco.int_write] }

/-- Example state: SIGINT cancelled the alarm; `main` has left the loop. -/
def ejemplo_cancelado : Estado :=
  { g_segundos_alarma := 10, g_alarma_disparada := 0, g_interrumpido := 1,
    alarma_pendiente := false, iteracion := 0, resultado := none, pc := Pc.si_alarma, pila := [] }

/-- Example state: the process after reporting Interrupted. -/
def ejemplo_interrumpido : Estado :=
  { g_segundos_alarma := 10, g_alarma_disparada := 0, g_interrumpido := 1,
    alarma_pendiente := false, iteracion := 0, resultado := some Resultado.Interrupted,
    pc := Pc.terminado, pila := [] }

/-- Example state: the SIGINT handler is about to call `alarm(0)` while the
alarm is pending. -/
def ejemplo_por_cancelar : Estado :=
  { g_segundos_alarma := 10, g_alarma_disparada := 0, g_interrumpido := 0,
    alarma_pendiente := true, iteracion := 0, resultado := none, pc := Pc.mientras_alarma,
    pila := [Marco.int_alarm0] }

/-- Example state: `main` is about to read `g_interrumpido`, which is set. -/
def ejemplo_salida_bucle : Estado :=
  { g_segundos_alarma := 10, g_alarma_disparada := 0, g_interrumpido := 1,
    alarma_pendiente := false, iteracion := 0, resultado := none, pc := Pc.mientras_int,
    pila := [] }

end Alarm

namespace Signals

/-- Signals for which signals.c installs a handler. -/
inductive Senal
  | SIGTERM
  | SIGINT
  deriving DecidableEq

/-- Exit status of the process. -/
inductive Salida
  | EXIT_SUCCESS
  | EXIT_FAILURE
  deriving DecidableEq

/-- What `configurar_manejadores_senales` did: the value it returned, the
signals on which `sigaction` was called (in call order) and the signals whose
handler is installed afterwards. -/
structure Registro where
  retorno : Int
  llamadas : List Senal
  instalados : List Senal
  deriving DecidableEq

/-- `configurar_manejadores_senales` (signals.c lines 45-78).  The argument
is the platform: the value `sigaction` returns for each signal. -/
def configurar_manejadores_senales (sigaction : Senal → Int) : Registro :=
  if sigaction Senal.SIGTERM = -1 then
    { retorno := -1, llamadas := [Senal.SIGTERM], instalados := [] }
  else if sigaction Senal.SIGINT = -1 then
    { retorno := -1, llamadas := [Senal.SIGTERM, Senal.SIGINT], instalados := [Senal.SIGTERM] }
  else
    { retorno := 0, llamadas := [Senal.SIGTERM, Senal.SIGINT],
      instalados := [Senal.SIGTERM, Senal.SIGINT] }

/-- Activation record of a handler, named after the statement it is about to
execute: `manejador_sigterm` is `write` (line 24) then
`g_seguir_ejecutando = 0` (line 25); `manejador_sigint` is `write` (line 34)
only. -/
inductive Marco
  | term_write
  | term_flag
  | int_write
  deriving DecidableEq

/-- Signal whose handler a frame belongs to. -/
def Marco.senal : Marco → Senal
  | Marco.term_write => Senal.SIGTERM
  | Marco.term_flag => Senal.SIGTERM
  | Marco.int_write => Senal.SIGINT

/-- Control points of `main` from the loop on: `mientras` is the condition of
line 104, `imprimir` the `printf` of line 105 with its `++contador`, `dormir`
the process inside `sleep(2)` (line 106), `resumen` lines 109-112 and
`terminado` the process after `return`. -/
inductive Pc
  | mientras
  | imprimir
  | dormir
  | resumen
  | terminado
  deriving DecidableEq

/-- State of the running process. -/
structure Estado where
  g_seguir_ejecutando : Nat
  contador : Nat
  pc : Pc
  pila : List Marco
  deriving DecidableEq

/-- What can happen next: a signal is delivered, the running handler of a
signal executes its next statement, or `main` executes its next statement
(at `dormir`: `sleep(2)` returns, after two seconds or early because a handler
ran). -/
inductive Evento
  | entrega (sig : Senal)
  | manejador (sig : Senal)
  | principal
  deriving DecidableEq

/-- A signal is blocked while its own handler is active. -/
def bloqueada (sig : Senal) (pila : List Marco) : Bool :=
  pila.any (fun m => decide (m.senal = sig))

/-- One statement of `manejador_sigterm` (signals.c lines 21-26). -/
def manejador_sigterm (s : Estado) (resto : List Marco) : Marco → Option Estado
  | Marco.term_write => some { s with pila := Marco.term_flag :: resto }
  | Marco.term_flag => some { s with g_seguir_ejecutando := 0, pila := resto }
  | _ => none

/-- One statement of `manejador_sigint` (signals.c lines 32-35). -/
def manejador_sigint (s : Estado) (resto : List Marco) : Marco → Option Estado
  | Marco.int_write => some { s with pila := resto }
  | _ => none

/-- One statement of `main` from line 104 on (signals.c lines 104-112). -/
def main_paso (s : Estado) : Option Estado :=
  match s.pc with
  | Pc.mientras =>
      if s.g_seguir_ejecutando ≠ 0 then some { s with pc := Pc.imprimir }
      else some { s with pc := Pc.resumen }
  | Pc.imprimir => some { s with contador := s.contador + 1, pc := Pc.dormir }
  | Pc.dormir => some { s with pc := Pc.mientras }
  | Pc.resumen => some { s with pc := Pc.terminado }
  | Pc.terminado => none

/-- Step relation of the process, as a function: `none` when the event cannot
happen in the state. -/
def paso (s : Estado) : Evento → Option Estado
  | Evento.entrega sig =>
      if s.pc = Pc.terminado ∨ bloqueada sig s.pila = true then none
      else
        match sig with
        | Senal.SIGTERM => some { s with pila := Marco.term_write :: s.pila }
        | Senal.SIGINT => some { s with pila := Marco.int_write :: s.pila }
  | Evento.manejador sig =>
      match s.pila with
      | [] => none
      | m :: resto =>
          if m.senal = sig then
            match sig with
            | Senal.SIGTERM => manejador_sigterm s resto m
            | Senal.SIGINT => manejador_sigint s resto m
          else none
  | Evento.principal =>
      match s.pila with
      | [] => main_paso s
      | _ :: _ => none

/-- Run a sequence of events. -/
def ejecutar (s : Estado) : List Evento → Option Estado
  | [] => some s
  | e :: es => (paso s e).bind (fun t => ejecutar t es)

/-- State of the process when the handlers are registered (line 91):
`g_seguir_ejecutando` is 1 (line 14) and `contador` is 0 (line 84). -/
def estado_inicial : Estado :=
  { g_seguir_ejecutando := 1, contador := 0, pc := Pc.mientras, pila := [] }

/-- An event of the SIGINT handler: its delivery or its statement. -/
def es_sigint : Evento → Bool
  | Evento.entrega Senal.SIGINT => true
  | Evento.manejador Senal.SIGINT => true
  | _ => false

/-- The same run with zero SIGINT notifications: every event of the SIGINT
handler is removed, everything else happens in the same order. -/
def sin_sigint (tr : List Evento) : List Evento :=
  tr.filter (fun e => !es_sigint e)

/-- Number of SIGINT notifications delivered in a run. -/
def num_sigint (tr : List Evento) : Nat :=
  tr.count (Evento.entrega Senal.SIGINT)

/-- A state without the activations of the SIGINT handler. -/
def sin_marcos_sigint (s : Estado) : Estado :=
  { s with pila := s.pila.filter (fun m => !decide (m.senal = Senal.SIGINT)) }

/-- Observable summary of a process of signals.c. -/
structure Proceso where
  salida : Option Salida
  llamadas_sigaction : List Senal
  instalados : List Senal
  contador : Nat
  deriving DecidableEq

/-- The program `main` of signals.c (lines 83-113): startup, then the events
`tr` happen.  A process that ended during startup is not affected by later
events.  The result is `none` when `tr` is not a possible sequence of
events. -/
def main (sigaction : Senal → Int) (tr : List Evento) : Option Proceso :=
  let r := configurar_manejadores_senales sigaction
  if r.retorno = -1 then
    some { salida := some Salida.EXIT_FAILURE, llamadas_sigaction := r.llamadas,
           instalados := r.instalados, contador := 0 }
  else
    (ejecutar estado_inicial tr).map (fun s =>
      { salida := if s.pc = Pc.terminado then some Salida.EXIT_SUCCESS else none,
        llamadas_sigaction := r.llamadas, instalados := r.instalados, contador := s.contador })

/-- Example state: first iteration printed, `main` inside `sleep(2)`. -/
def ejemplo_dormido : Estado :=
  { g_seguir_ejecutando := 1, contador := 1, pc := Pc.dormir, pila := [] }

/-- Example state: as `ejemplo_dormido`, SIGINT just delivered. -/
def ejemplo_en_manejador : Estado :=
  { g_seguir_ejecutando := 1, contador := 1, pc := Pc.dormir, pila := [Marco.int_write] }

/-- Example state: `sleep(2)` has returned after the SIGINT handler ran. -/
def ejemplo_tras_dormir : Estado :=
  { g_seguir_ejecutando := 1, contador := 1, pc := Pc.mientras, pila := [] }

/-- Example state: termination requested, `main` inside `sleep(2)`. -/
def ejemplo_parado : Estado :=
  { g_seguir_ejecutando := 0, contador := 2, pc := Pc.dormir, pila := [] }

/-- Example state: as `ejemplo_parado`, SIGINT just delivered. -/
def ejemplo_parado_int : Estado :=
  { g_seguir_ejecutando := 0, contador := 2, pc := Pc.dormir, pila := [Marco.int_write] }

/-- A platform that refuses the handler of SIGTERM. -/
def sigaction_sin_sigterm : Senal → Int
  | Senal.SIGTERM => -1
  | Senal.SIGINT => 0

end Signals

/-! # Auxiliary lemmas -/

/-! ## Conversion to `unsigned int` -/

theorem a_unsigned_of_range (x : Int) (h0 : 0 ≤ x) (h1 : x < 4294967296) :
    ((a_unsigned x : Nat) : Int) = x := by
  unfold a_unsigned UINT_MOD
  omega

/-- The value computed by `obtener_tiempo_restante` when the result of line
87 fits in an `unsigned int`. -/
theorem alarm_tiempo_restante_eq (d : Nat) (inicio ahora : Int)
    (hfit : (d : Int) - (ahora - inicio) < 4294967296) :
    (Alarm.obtener_tiempo_restante d inicio ahora : Int)
      = max 0 ((d : Int) - (ahora - inicio)) := by
  unfold Alarm.obtener_tiempo_restante
  by_cases h : ahora - inicio ≥ (d : Int)
  · simp only [h, if_true]
    rw [max_eq_left (by omega)]
    rfl
  · simp only [h, if_false]
    rw [max_eq_right (by omega)]
    exact a_unsigned_of_range _ (by omega) hfit

/-! ## Inversion of the step function of alarm.c -/

theorem alarm_main_paso_inv (s t : Alarm.Estado) (h : Alarm.main_paso s = some t) :
    (s.pc = Alarm.Pc.armar
      ∧ t = { s with alarma_pendiente := decide (s.g_segundos_alarma ≠ 0),
                     pc := Alarm.Pc.mientras_alarma })
    ∨ (s.pc = Alarm.Pc.mientras_alarma ∧ s.g_alarma_disparada ≠ 0
      ∧ t = { s with pc := Alarm.Pc.si_alarma })
    ∨ (s.pc = Alarm.Pc.mientras_alarma ∧ s.g_alarma_disparada = 0
      ∧ t = { s with pc := Alarm.Pc.mientras_int })
    ∨ (s.pc = Alarm.Pc.mientras_int ∧ s.g_interrumpido ≠ 0
      ∧ t = { s with pc := Alarm.Pc.si_alarma })
    ∨ (s.pc = Alarm.Pc.mientras_int ∧ s.g_interrumpido = 0
      ∧ t = { s with pc := Alarm.Pc.cuerpo })
    ∨ (s.pc = Alarm.Pc.cuerpo
      ∧ t = { s with iteracion := s.iteracion + 1, pc := Alarm.Pc.mientras_alarma })
    ∨ (s.pc = Alarm.Pc.si_alarma ∧ s.g_alarma_disparada ≠ 0
      ∧ t = { s with resultado := some Alarm.Resultado.TimedOut, pc := Alarm.Pc.final })
    ∨ (s.pc = Alarm.Pc.si_alarma ∧ s.g_alarma_disparada = 0
      ∧ t = { s with pc := Alarm.Pc.si_int })
    ∨ (s.pc = Alarm.Pc.si_int ∧ s.g_interrumpido ≠ 0
      ∧ t = { s with resultado := some Alarm.Resultado.Interrupted, pc := Alarm.Pc.final })
    ∨ (s.pc = Alarm.Pc.si_int ∧ s.g_interrumpido = 0
      ∧ t = { s with pc := Alarm.Pc.final })
    ∨ (s.pc = Alarm.Pc.final ∧ t = { s with pc := Alarm.Pc.terminado }) := by
  unfold Alarm.main_paso at h
  split at h <;> rename_i hpc <;> simp only [hpc] <;> (try split at h) <;>
    simp at h <;> subst h <;> simp_all

theorem alarm_paso_inv (s t : Alarm.Estado) (e : Alarm.Evento) (h : Alarm.paso s e = some t) :
    (e = Alarm.Evento.entrega Alarm.Senal.SIGALRM ∧ s.pc ≠ Alarm.Pc.terminado
      ∧ Alarm.bloqueada Alarm.Senal.SIGALRM s.pila = false ∧ s.alarma_pendiente = true
      ∧ t = { s with alarma_pendiente := false, pila := Alarm.Marco.alrm_write :: s.pila })
    ∨ (e = Alarm.Evento.entrega Alarm.Senal.SIGINT ∧ s.pc ≠ Alarm.Pc.terminado
      ∧ Alarm.bloqueada Alarm.Senal.SIGINT s.pila = false
      ∧ t = { s with pila := Alarm.Marco.int_write :: s.pila })
    ∨ (∃ resto, e = Alarm.Evento.manejador Alarm.Senal.SIGALRM
      ∧ s.pila = Alarm.Marco.alrm_write :: resto
      ∧ t = { s with pila := Alarm.Marco.alrm_flag :: resto })
    ∨ (∃ resto, e = Alarm.Evento.manejador Alarm.Senal.SIGALRM
      ∧ s.pila = Alarm.Marco.alrm_flag :: resto
      ∧ t = { s with g_alarma_disparada := 1, pila := resto })
    ∨ (∃ resto, e = Alarm.Evento.manejador Alarm.Senal.SIGINT
      ∧ s.pila = Alarm.Marco.int_write :: resto
      ∧ t = { s with pila := Alarm.Marco.int_alarm0 :: resto })
    ∨ (∃ resto, e = Alarm.Evento.manejador Alarm.Senal.SIGINT
      ∧ s.pila = Alarm.Marco.int_alarm0 :: resto
      ∧ t = { s with alarma_pendiente := false, pila := Alarm.Marco.int_flag :: resto })
    ∨ (∃ resto, e = Alarm.Evento.manejador Alarm.Senal.SIGINT
      ∧ s.pila = Alarm.Marco.int_flag :: resto
      ∧ t = { s with g_interrumpido := 1, pila := resto })
    ∨ (e = Alarm.Evento.principal ∧ s.pila = [] ∧ Alarm.main_paso s = some t) := by
  cases e with
  | entrega sig =>
      cases sig <;> simp only [Alarm.paso] at h <;> split at h <;> try simp at h
      · rename_i hc
        simp at hc
        obtain ⟨hp, rfl⟩ := h
        simp [hc, hp]
      · rename_i hc
        simp at hc
        subst h
        simp [hc]
  | manejador sig =>
      simp only [Alarm.paso] at h
      split at h
      · simp at h
      · rename_i m resto hp
        cases sig <;> cases m <;>
          simp [Alarm.Marco.senal, Alarm.manejador_sigalrm, Alarm.manejador_sigint] at h <;>
          subst h <;> simp [hp]
  | principal =>
      simp only [Alarm.paso] at h
      split at h
      · rename_i hp
        simp [hp, h]
      · simp at h

/-! ## Invariants of alarm.c -/

theorem alarm_ejecutar_inv (P : Alarm.Estado → Prop) (ok : Alarm.Evento → Prop)
    (hP : ∀ s e t, ok e → P s → Alarm.paso s e = some t → P t)
    (tr : List Alarm.Evento) :
    ∀ s t, (∀ e ∈ tr, ok e) → P s → Alarm.ejecutar s tr = some t → P t := by
  induction tr with
  | nil =>
      intro s t _ hs h
      simp only [Alarm.ejecutar, Option.some.injEq] at h
      exact h ▸ hs
  | cons e es ih =>
      intro s t hok hs h
      simp only [Alarm.ejecutar] at h
      cases hp : Alarm.paso s e with
      | none => simp [hp] at h
      | some u =>
          simp only [hp, Option.some_bind] at h
          exact ih u t (fun x hx => hok x (List.mem_cons_of_mem _ hx))
            (hP s e u (hok e (List.mem_cons_self _ _)) hs hp) h

/-- Without a SIGALRM delivery the alarm flag stays 0, no SIGALRM handler is
active and TimedOut is not reported. -/
theorem alarm_paso_sin_entrega (s t : Alarm.Estado) (e : Alarm.Evento)
    (he : e ≠ Alarm.Evento.entrega Alarm.Senal.SIGALRM)
    (hs : s.g_alarma_disparada = 0 ∧ Alarm.bloqueada Alarm.Senal.SIGALRM s.pila = false
      ∧ s.resultado ≠ some Alarm.Resultado.TimedOut)
    (h : Alarm.paso s e = some t) :
    t.g_alarma_disparada = 0 ∧ Alarm.bloqueada Alarm.Senal.SIGALRM t.pila = false
      ∧ t.resultado ≠ some Alarm.Resultado.TimedOut := by
  obtain ⟨ha, hb, hr⟩ := hs
  rcases alarm_paso_inv s t e h with
    ⟨rfl, -, -, -, rfl⟩ | ⟨rfl, -, -, rfl⟩ | ⟨resto, rfl, hp, rfl⟩ | ⟨resto, rfl, hp, rfl⟩ |
    ⟨resto, rfl, hp, rfl⟩ | ⟨resto, rfl, hp, rfl⟩ | ⟨resto, rfl, hp, rfl⟩ | ⟨rfl, hp, hm⟩
  · exact absurd rfl he
  · simp_all [Alarm.bloqueada, Alarm.Marco.senal]
  · simp_all [Alarm.bloqueada, Alarm.Marco.senal]
  · simp_all [Alarm.bloqueada, Alarm.Marco.senal]
  · simp_all [Alarm.bloqueada, Alarm.Marco.senal]
  · simp_all [Alarm.bloqueada, Alarm.Marco.senal]
  · simp_all [Alarm.bloqueada, Alarm.Marco.senal]
  · rcases alarm_main_paso_inv s t hm with
      ⟨-, rfl⟩ | ⟨-, -, rfl⟩ | ⟨-, -, rfl⟩ | ⟨-, -, rfl⟩ | ⟨-, -, rfl⟩ | ⟨-, rfl⟩ |
      ⟨-, hne, rfl⟩ | ⟨-, -, rfl⟩ | ⟨-, -, rfl⟩ | ⟨-, -, rfl⟩ | ⟨-, rfl⟩ <;>
      simp_all

/-- Once the timer is cancelled with no SIGALRM delivered, nothing sets the
alarm flag any more. -/
theorem alarm_paso_cancelada (s t : Alarm.Estado) (e : Alarm.Evento)
    (hs : (s.g_alarma_disparada = 0 ∧ Alarm.bloqueada Alarm.Senal.SIGALRM s.pila = false
      ∧ s.resultado ≠ some Alarm.Resultado.TimedOut)
      ∧ s.alarma_pendiente = false ∧ s.pc ≠ Alarm.Pc.armar)
    (h : Alarm.paso s e = some t) :
    (t.g_alarma_disparada = 0 ∧ Alarm.bloqueada Alarm.Senal.SIGALRM t.pila = false
      ∧ t.resultado ≠ some Alarm.Resultado.TimedOut)
      ∧ t.alarma_pendiente = false ∧ t.pc ≠ Alarm.Pc.armar := by
  obtain ⟨h1, hpend, hpc⟩ := hs
  by_cases he : e = Alarm.Evento.entrega Alarm.Senal.SIGALRM
  · subst he
    rcases alarm_paso_inv s t _ h with
      ⟨-, -, -, hp, -⟩ | ⟨h0, -⟩ | ⟨_, h0, -⟩ | ⟨_, h0, -⟩ |
      ⟨_, h0, -⟩ | ⟨_, h0, -⟩ | ⟨_, h0, -⟩ | ⟨h0, -⟩
    · rw [hpend] at hp; exact absurd hp (by decide)
    all_goals cases h0
  · refine ⟨alarm_paso_sin_entrega s t e he h1 h, ?_⟩
    rcases alarm_paso_inv s t e h with
      ⟨rfl, -, -, -, rfl⟩ | ⟨rfl, -, -, rfl⟩ | ⟨resto, rfl, hp, rfl⟩ | ⟨resto, rfl, hp, rfl⟩ |
      ⟨resto, rfl, hp, rfl⟩ | ⟨resto, rfl, hp, rfl⟩ | ⟨resto, rfl, hp, rfl⟩ | ⟨rfl, hp, hm⟩
    · exact absurd rfl he
    · simp_all
    · simp_all
    · simp_all
    · simp_all
    · simp_all
    · simp_all
    · rcases alarm_main_paso_inv s t hm with
        ⟨h0, rfl⟩ | ⟨-, -, rfl⟩ | ⟨-, -, rfl⟩ | ⟨-, -, rfl⟩ | ⟨-, -, rfl⟩ | ⟨-, rfl⟩ |
        ⟨-, hne, rfl⟩ | ⟨-, -, rfl⟩ | ⟨-, -, rfl⟩ | ⟨-, -, rfl⟩ | ⟨-, rfl⟩ <;>
        simp_all

theorem alarm_ejecutar_cons (s t : Alarm.Estado) (e : Alarm.Evento) (es : List Alarm.Evento)
    (h : Alarm.ejecutar s (e :: es) = some t) :
    ∃ u, Alarm.paso s e = some u ∧ Alarm.ejecutar u es = some t := by
  simp only [Alarm.ejecutar] at h
  cases hp : Alarm.paso s e with
  | none => simp [hp] at h
  | some u =>
      simp only [hp, Option.some_bind] at h
      exact ⟨u, rfl, h⟩

/-- No step of alarm.c clears a flag. -/
theorem alarm_paso_banderas (s t : Alarm.Estado) (e : Alarm.Evento)
    (h : Alarm.paso s e = some t) :
    (s.g_alarma_disparada = 1 → t.g_alarma_disparada = 1)
    ∧ (s.g_interrumpido = 1 → t.g_interrumpido = 1) := by
  rcases alarm_paso_inv s t e h with
    ⟨rfl, -, -, -, rfl⟩ | ⟨rfl, -, -, rfl⟩ | ⟨resto, rfl, hp, rfl⟩ | ⟨resto, rfl, hp, rfl⟩ |
    ⟨resto, rfl, hp, rfl⟩ | ⟨resto, rfl, hp, rfl⟩ | ⟨resto, rfl, hp, rfl⟩ | ⟨rfl, hp, hm⟩
  · exact ⟨id, id⟩
  · exact ⟨id, id⟩
  · exact ⟨id, id⟩
  · exact ⟨fun _ => rfl, id⟩
  · exact ⟨id, id⟩
  · exact ⟨id, id⟩
  · exact ⟨id, fun _ => rfl⟩
  · rcases alarm_main_paso_inv s t hm with
      ⟨h0, rfl⟩ | ⟨h0, -, rfl⟩ | ⟨h0, -, rfl⟩ | ⟨h0, -, rfl⟩ | ⟨h0, -, rfl⟩ | ⟨h0, rfl⟩ |
      ⟨h0, -, rfl⟩ | ⟨h0, -, rfl⟩ | ⟨h0, -, rfl⟩ | ⟨h0, -, rfl⟩ | ⟨h0, rfl⟩ <;>
      exact ⟨id, id⟩

/-- Handler events change neither the control point of `main` nor the
reported outcome, and keep `g_interrumpido` set. -/
theorem alarm_paso_manejadores (pc0 : Alarm.Pc) (r0 : Option Alarm.Resultado)
    (s t : Alarm.Estado) (e : Alarm.Evento)
    (he : e ≠ Alarm.Evento.principal)
    (hs : s.pc = pc0 ∧ s.resultado = r0 ∧ s.g_interrumpido ≠ 0)
    (h : Alarm.paso s e = some t) :
    t.pc = pc0 ∧ t.resultado = r0 ∧ t.g_interrumpido ≠ 0 := by
  rcases alarm_paso_inv s t e h with
    ⟨rfl, -, -, -, rfl⟩ | ⟨rfl, -, -, rfl⟩ | ⟨resto, rfl, hp, rfl⟩ | ⟨resto, rfl, hp, rfl⟩ |
    ⟨resto, rfl, hp, rfl⟩ | ⟨resto, rfl, hp, rfl⟩ | ⟨resto, rfl, hp, rfl⟩ | ⟨rfl, hp, hm⟩
  · simpa using hs
  · simpa using hs
  · simpa using hs
  · simpa using hs
  · simpa using hs
  · simpa using hs
  · simp_all
  · exact absurd rfl he

/-- A reported TimedOut outcome is never changed. -/
theorem alarm_paso_timedout (s t : Alarm.Estado) (e : Alarm.Evento)
    (hs : s.resultado = some Alarm.Resultado.TimedOut
      ∧ (s.pc = Alarm.Pc.final ∨ s.pc = Alarm.Pc.terminado))
    (h : Alarm.paso s e = some t) :
    t.resultado = some Alarm.Resultado.TimedOut
      ∧ (t.pc = Alarm.Pc.final ∨ t.pc = Alarm.Pc.terminado) := by
  rcases alarm_paso_inv s t e h with
    ⟨rfl, -, -, -, rfl⟩ | ⟨rfl, -, -, rfl⟩ | ⟨resto, rfl, hp, rfl⟩ | ⟨resto, rfl, hp, rfl⟩ |
    ⟨resto, rfl, hp, rfl⟩ | ⟨resto, rfl, hp, rfl⟩ | ⟨resto, rfl, hp, rfl⟩ | ⟨rfl, hp, hm⟩
  · simpa using hs
  · simpa using hs
  · simpa using hs
  · simpa using hs
  · simpa using hs
  · simpa using hs
  · simpa using hs
  · rcases alarm_main_paso_inv s t hm with
      ⟨h0, rfl⟩ | ⟨h0, -, rfl⟩ | ⟨h0, -, rfl⟩ | ⟨h0, -, rfl⟩ | ⟨h0, -, rfl⟩ | ⟨h0, rfl⟩ |
      ⟨h0, hne, rfl⟩ | ⟨h0, -, rfl⟩ | ⟨h0, -, rfl⟩ | ⟨h0, -, rfl⟩ | ⟨h0, rfl⟩ <;>
      simp_all

/-- Past the test of line 175 with `g_interrumpido` set, the only outcome
that can be reported is Interrupted, and it is never changed. -/
theorem alarm_paso_interrumpido (s t : Alarm.Estado) (e : Alarm.Evento)
    (hs : (s.pc = Alarm.Pc.si_int ∧ s.g_interrumpido ≠ 0 ∧ s.resultado = none)
      ∨ ((s.pc = Alarm.Pc.final ∨ s.pc = Alarm.Pc.terminado)
        ∧ s.resultado = some Alarm.Resultado.Interrupted))
    (h : Alarm.paso s e = some t) :
    (t.pc = Alarm.Pc.si_int ∧ t.g_interrumpido ≠ 0 ∧ t.resultado = none)
      ∨ ((t.pc = Alarm.Pc.final ∨ t.pc = Alarm.Pc.terminado)
        ∧ t.resultado = some Alarm.Resultado.Interrupted) := by
  rcases alarm_paso_inv s t e h with
    ⟨rfl, -, -, -, rfl⟩ | ⟨rfl, -, -, rfl⟩ | ⟨resto, rfl, hp, rfl⟩ | ⟨resto, rfl, hp, rfl⟩ |
    ⟨resto, rfl, hp, rfl⟩ | ⟨resto, rfl, hp, rfl⟩ | ⟨resto, rfl, hp, rfl⟩ | ⟨rfl, hp, hm⟩
  · simpa using hs
  · simpa using hs
  · simpa using hs
  · simpa using hs
  · simpa using hs
  · simpa using hs
  · rcases hs with ⟨h1, h2, h3⟩ | ⟨h1, h2⟩
    · left; simp [h1, h3]
    · right; simp [h1, h2]
  · rcases alarm_main_paso_inv s t hm with
      ⟨h0, rfl⟩ | ⟨h0, -, rfl⟩ | ⟨h0, -, rfl⟩ | ⟨h0, -, rfl⟩ | ⟨h0, -, rfl⟩ | ⟨h0, rfl⟩ |
      ⟨h0, hne, rfl⟩ | ⟨h0, -, rfl⟩ | ⟨h0, hne, rfl⟩ | ⟨h0, hz, rfl⟩ | ⟨h0, rfl⟩ <;>
      simp_all

/-- Before the test of line 175 nothing has been reported. -/
theorem alarm_paso_sin_informe (s t : Alarm.Estado) (e : Alarm.Evento)
    (hs : s.pc = Alarm.Pc.final ∨ s.pc = Alarm.Pc.terminado ∨ s.resultado = none)
    (h : Alarm.paso s e = some t) :
    t.pc = Alarm.Pc.final ∨ t.pc = Alarm.Pc.terminado ∨ t.resultado = none := by
  rcases alarm_paso_inv s t e h with
    ⟨rfl, -, -, -, rfl⟩ | ⟨rfl, -, -, rfl⟩ | ⟨resto, rfl, hp, rfl⟩ | ⟨resto, rfl, hp, rfl⟩ |
    ⟨resto, rfl, hp, rfl⟩ | ⟨resto, rfl, hp, rfl⟩ | ⟨resto, rfl, hp, rfl⟩ | ⟨rfl, hp, hm⟩
  · simpa using hs
  · simpa using hs
  · simpa using hs
  · simpa using hs
  · simpa using hs
  · simpa using hs
  · simpa using hs
  · rcases alarm_main_paso_inv s t hm with
      ⟨h0, rfl⟩ | ⟨h0, -, rfl⟩ | ⟨h0, -, rfl⟩ | ⟨h0, -, rfl⟩ | ⟨h0, -, rfl⟩ | ⟨h0, rfl⟩ |
      ⟨h0, hne, rfl⟩ | ⟨h0, -, rfl⟩ | ⟨h0, hne, rfl⟩ | ⟨h0, hz, rfl⟩ | ⟨h0, rfl⟩ <;>
      simp_all

/-! ## The step function of signals.c -/

theorem signals_paso_inv (s t : Signals.Estado) (e : Signals.Evento)
    (h : Signals.paso s e = some t) :
    (e = Signals.Evento.entrega Signals.Senal.SIGTERM ∧ s.pc ≠ Signals.Pc.terminado
      ∧ Signals.bloqueada Signals.Senal.SIGTERM s.pila = false
      ∧ t = { s with pila := Signals.Marco.term_write :: s.pila })
    ∨ (e = Signals.Evento.entrega Signals.Senal.SIGINT ∧ s.pc ≠ Signals.Pc.terminado
      ∧ Signals.bloqueada Signals.Senal.SIGINT s.pila = false
      ∧ t = { s with pila := Signals.Marco.int_write :: s.pila })
    ∨ (∃ resto, e = Signals.Evento.manejador Signals.Senal.SIGTERM
      ∧ s.pila = Signals.Marco.term_write :: resto
      ∧ t = { s with pila := Signals.Marco.term_flag :: resto })
    ∨ (∃ resto, e = Signals.Evento.manejador Signals.Senal.SIGTERM
      ∧ s.pila = Signals.Marco.term_flag :: resto
      ∧ t = { s with g_seguir_ejecutando := 0, pila := resto })
    ∨ (∃ resto, e = Signals.Evento.manejador Signals.Senal.SIGINT
      ∧ s.pila = Signals.Marco.int_write :: resto
      ∧ t = { s with pila := resto })
    ∨ (e = Signals.Evento.principal ∧ s.pila = [] ∧ Signals.main_paso s = some t) := by
  cases e with
  | entrega sig =>
      cases sig <;> simp only [Signals.paso] at h <;> split at h <;> try simp at h
      · rename_i hc
        simp at hc
        subst h
        simp [hc]
      · rename_i hc
        simp at hc
        subst h
        simp [hc]
  | manejador sig =>
      simp only [Signals.paso] at h
      split at h
      · simp at h
      · rename_i m resto hp
        cases sig <;> cases m <;>
          simp [Signals.Marco.senal, Signals.manejador_sigterm, Signals.manejador_sigint] at h <;>
          subst h <;> simp [hp]
  | principal =>
      simp only [Signals.paso] at h
      split at h
      · rename_i hp
        simp [hp, h]
      · simp at h

theorem signals_main_paso_inv (s t : Signals.Estado) (h : Signals.main_paso s = some t) :
    (s.pc = Signals.Pc.mientras ∧ s.g_seguir_ejecutando ≠ 0
      ∧ t = { s with pc := Signals.Pc.imprimir })
    ∨ (s.pc = Signals.Pc.mientras ∧ s.g_seguir_ejecutando = 0
      ∧ t = { s with pc := Signals.Pc.resumen })
    ∨ (s.pc = Signals.Pc.imprimir
      ∧ t = { s with contador := s.contador + 1, pc := Signals.Pc.dormir })
    ∨ (s.pc = Signals.Pc.dormir ∧ t = { s with pc := Signals.Pc.mientras })
    ∨ (s.pc = Signals.Pc.resumen ∧ t = { s with pc := Signals.Pc.terminado }) := by
  unfold Signals.main_paso at h
  split at h <;> rename_i hpc <;> simp only [hpc] <;> (try split at h) <;>
    simp at h <;> subst h <;> simp_all

theorem signals_ejecutar_cons (s t : Signals.Estado) (e : Signals.Evento)
    (es : List Signals.Evento) (h : Signals.ejecutar s (e :: es) = some t) :
    ∃ u, Signals.paso s e = some u ∧ Signals.ejecutar u es = some t := by
  simp only [Signals.ejecutar] at h
  cases hp : Signals.paso s e with
  | none => simp [hp] at h
  | some u =>
      simp only [hp, Option.some_bind] at h
      exact ⟨u, rfl, h⟩

theorem signals_senal_term_write :
    Signals.Marco.senal Signals.Marco.term_write = Signals.Senal.SIGTERM := rfl

theorem signals_senal_term_flag :
    Signals.Marco.senal Signals.Marco.term_flag = Signals.Senal.SIGTERM := rfl

theorem signals_senal_int_write :
    Signals.Marco.senal Signals.Marco.int_write = Signals.Senal.SIGINT := rfl

/-- Removing the SIGINT activations does not change whether SIGTERM is
blocked. -/
theorem signals_bloqueada_sin_marcos (pila : List Signals.Marco) :
    Signals.bloqueada Signals.Senal.SIGTERM
        (pila.filter (fun m => !decide (m.senal = Signals.Senal.SIGINT)))
      = Signals.bloqueada Signals.Senal.SIGTERM pila := by
  induction pila with
  | nil => rfl
  | cons m resto ih =>
      unfold Signals.bloqueada at ih ⊢
      cases m
      · rw [List.filter_cons_of_pos (by rfl)]
        simp only [List.any_cons, ih]
      · rw [List.filter_cons_of_pos (by rfl)]
        simp only [List.any_cons, ih]
      · rw [List.filter_cons_of_neg (by simp [signals_senal_int_write])]
        rw [ih]
        simp [signals_senal_int_write]

/-- One step of a run and the corresponding step of the run without SIGINT:
an event of the SIGINT handler is matched by no step, any other event by the
same event. -/
theorem signals_paso_sim (s t : Signals.Estado) (e : Signals.Evento)
    (h : Signals.paso s e = some t) :
    (Signals.es_sigint e = true ∧ Signals.sin_marcos_sigint t = Signals.sin_marcos_sigint s)
    ∨ (Signals.es_sigint e = false
      ∧ Signals.paso (Signals.sin_marcos_sigint s) e = some (Signals.sin_marcos_sigint t)) := by
  rcases signals_paso_inv s t e h with
    ⟨rfl, hpc, hb, rfl⟩ | ⟨rfl, hpc, hb, rfl⟩ | ⟨resto, rfl, hp, rfl⟩ | ⟨resto, rfl, hp, rfl⟩ |
    ⟨resto, rfl, hp, rfl⟩ | ⟨rfl, hp, hm⟩
  · right
    refine ⟨rfl, ?_⟩
    have hb2 := signals_bloqueada_sin_marcos s.pila
    rw [hb] at hb2
    simp [Signals.paso, Signals.sin_marcos_sigint, hpc, hb2, signals_senal_term_write, signals_senal_term_flag, signals_senal_int_write,
      List.filter_cons]
  · left
    refine ⟨rfl, ?_⟩
    simp [Signals.sin_marcos_sigint, signals_senal_term_write, signals_senal_term_flag, signals_senal_int_write, List.filter_cons]
  · right
    refine ⟨rfl, ?_⟩
    simp [Signals.paso, Signals.sin_marcos_sigint, hp, signals_senal_term_write, signals_senal_term_flag, signals_senal_int_write, List.filter_cons,
      Signals.manejador_sigterm]
  · right
    refine ⟨rfl, ?_⟩
    simp [Signals.paso, Signals.sin_marcos_sigint, hp, signals_senal_term_write, signals_senal_term_flag, signals_senal_int_write, List.filter_cons,
      Signals.manejador_sigterm]
  · left
    refine ⟨rfl, ?_⟩
    simp [Signals.sin_marcos_sigint, hp, signals_senal_term_write, signals_senal_term_flag, signals_senal_int_write, List.filter_cons]
  · right
    refine ⟨rfl, ?_⟩
    have hs : Signals.sin_marcos_sigint s = s := by
      rcases s with ⟨g, c, pc, pila⟩
      simp only at hp
      subst hp
      rfl
    have ht : Signals.sin_marcos_sigint t = t := by
      rcases signals_main_paso_inv s t hm with
        ⟨-, -, rfl⟩ | ⟨-, -, rfl⟩ | ⟨-, rfl⟩ | ⟨-, rfl⟩ | ⟨-, rfl⟩ <;>
        simp [Signals.sin_marcos_sigint, hp]
    rw [hs, ht]
    simp [Signals.paso, hp, hm]

/-- A run and the same run without SIGINT end in the same state, up to the
activations of the SIGINT handler. -/
theorem signals_ejecutar_sim (tr : List Signals.Evento) :
    ∀ s t, Signals.ejecutar s tr = some t →
      Signals.ejecutar (Signals.sin_marcos_sigint s) (Signals.sin_sigint tr)
        = some (Signals.sin_marcos_sigint t) := by
  induction tr with
  | nil =>
      intro s t h
      simp only [Signals.ejecutar, Option.some.injEq] at h
      subst h
      rfl
  | cons e es ih =>
      intro s t h
      obtain ⟨u, hp, hu⟩ := signals_ejecutar_cons s t e es h
      have hrec := ih u t hu
      rcases signals_paso_sim s u e hp with ⟨he, hsame⟩ | ⟨he, hstep⟩
      · have : Signals.sin_sigint (e :: es) = Signals.sin_sigint es := by
          simp [Signals.sin_sigint, List.filter_cons, he]
        rw [this, ← hsame]
        exact hrec
      · have : Signals.sin_sigint (e :: es) = e :: Signals.sin_sigint es := by
          simp [Signals.sin_sigint, List.filter_cons, he]
        rw [this]
        simp only [Signals.ejecutar, hstep, Option.some_bind]
        exact hrec

theorem signals_num_sigint_sin_sigint (tr : List Signals.Evento) :
    Signals.num_sigint (Signals.sin_sigint tr) = 0 := by
  unfold Signals.num_sigint Signals.sin_sigint
  rw [List.count_eq_zero]
  intro hmem
  have := (List.mem_filter.mp hmem).2
  simp [Signals.es_sigint] at this

theorem signals_ejecutar_inv (P : Signals.Estado → Prop)
    (hP : ∀ s e t, P s → Signals.paso s e = some t → P t)
    (tr : List Signals.Evento) :
    ∀ s t, P s → Signals.ejecutar s tr = some t → P t := by
  induction tr with
  | nil =>
      intro s t hs h
      simp only [Signals.ejecutar, Option.some.injEq] at h
      exact h ▸ hs
  | cons e es ih =>
      intro s t hs h
      obtain ⟨u, hp, hu⟩ := signals_ejecutar_cons s t e es h
      exact ih u t (hP s e u hs hp) hu

/-- No handler is active in a process that has ended. -/
theorem signals_paso_terminado (s t : Signals.Estado) (e : Signals.Evento)
    (hs : s.pc = Signals.Pc.terminado → s.pila = [])
    (h : Signals.paso s e = some t) :
    t.pc = Signals.Pc.terminado → t.pila = [] := by
  rcases signals_paso_inv s t e h with
    ⟨rfl, hpc, hb, rfl⟩ | ⟨rfl, hpc, hb, rfl⟩ | ⟨resto, rfl, hp, rfl⟩ | ⟨resto, rfl, hp, rfl⟩ |
    ⟨resto, rfl, hp, rfl⟩ | ⟨rfl, hp, hm⟩
  · intro h0; exact absurd h0 hpc
  · intro h0; exact absurd h0 hpc
  · intro h0; simp [hs h0] at hp
  · intro h0; simp [hs h0] at hp
  · intro h0; simp [hs h0] at hp
  · rcases signals_main_paso_inv s t hm with
      ⟨-, -, rfl⟩ | ⟨-, -, rfl⟩ | ⟨-, rfl⟩ | ⟨-, rfl⟩ | ⟨-, rfl⟩ <;>
      simp [hp]

/-- No step of signals.c sets `g_seguir_ejecutando` back. -/
theorem signals_paso_bandera (s t : Signals.Estado) (e : Signals.Evento)
    (h : Signals.paso s e = some t) :
    s.g_seguir_ejecutando = 0 → t.g_seguir_ejecutando = 0 := by
  rcases signals_paso_inv s t e h with
    ⟨rfl, -, -, rfl⟩ | ⟨rfl, -, -, rfl⟩ | ⟨resto, rfl, -, rfl⟩ | ⟨resto, rfl, -, rfl⟩ |
    ⟨resto, rfl, -, rfl⟩ | ⟨rfl, -, hm⟩
  · exact id
  · exact id
  · exact id
  · exact fun _ => rfl
  · exact id
  · rcases signals_main_paso_inv s t hm with
      ⟨-, -, rfl⟩ | ⟨-, -, rfl⟩ | ⟨-, rfl⟩ | ⟨-, rfl⟩ | ⟨-, rfl⟩ <;>
      exact id

/-! # The claims -/

/-! ## Remaining time: exact value -/

/-- C1 (as stated) fails: with d = 1, start = 2^32 and now = 0 the function
returns 1, while max(0, d − (now − start)) is 2^32 + 1. -/
theorem c1_counterexample :
    ¬ ((Alarm.obtener_tiempo_restante 1 4294967296 0 : Int)
        = max 0 ((1 : Int) - (0 - 4294967296))) := by
  decide

/-- C1 (amended): for every duration d in [1, 3600] and all start and current
times with d − (now − start) < 2^32 (in particular whenever now ≥ start),
`obtener_tiempo_restante` returns exactly max(0, d − (now − start)). -/
theorem c1_tiempo_restante_exacto (d : Nat) (inicio ahora : Int)
    (hd1 : 1 ≤ d) (hd2 : d ≤ 3600)
    (hfit : (d : Int) - (ahora - inicio) < 4294967296) :
    (Alarm.obtener_tiempo_restante d inicio ahora : Int)
      = max 0 ((d : Int) - (ahora - inicio)) := by
  exact alarm_tiempo_restante_eq d inicio ahora hfit

theorem c1_tiempo_restante_exacto_witness :
    (Alarm.obtener_tiempo_restante 10 1000 1003 : Int) = max 0 ((10 : Int) - (1003 - 1000)) :=
  c1_tiempo_restante_exacto 10 1000 1003 (by decide) (by decide) (by decide)

/-! ## Validation of the timeout argument -/

/-- C2: for every integer n given as argument, on a platform that accepts the
two registrations startup succeeds with the timeout set to n if and only if
1 ≤ n ≤ 3600, and on any platform startup can succeed only for such n; for
every n outside [1, 3600] the program ends with EXIT_FAILURE whatever the
platform and whatever happens next, with no `sigaction` call made, no handler
registered, the alarm not armed and the iteration count 0; with no argument
the timeout is the default 10. -/
theorem c2_validacion_del_argumento (n : Int) (sigaction : Alarm.Senal → Int)
    (tr : List Alarm.Evento) (g : Nat) (r : Alarm.Registro) :
    ((∃ g0 r0, Alarm.main_arranque (some n) Alarm.sigaction_ok = Except.ok (g0, r0)
        ∧ (g0 : Int) = n) ↔ (1 ≤ n ∧ n ≤ 3600))
    ∧ (Alarm.main_arranque (some n) sigaction = Except.ok (g, r) →
        1 ≤ n ∧ n ≤ 3600 ∧ (g : Int) = n)
    ∧ (¬ (1 ≤ n ∧ n ≤ 3600) →
        Alarm.main (some n) sigaction tr
          = some { salida := some Alarm.Salida.EXIT_FAILURE,
                   g_segundos_alarma := Alarm.g_segundos_alarma_defecto,
                   llamadas_sigaction := [], instalados := [],
                   alarma_armada := false, iteracion := 0, resultado := none })
    ∧ (∃ r0, Alarm.main_arranque none Alarm.sigaction_ok = Except.ok (10, r0)) := by
  have hok : (Alarm.configurar_manejadores_senales Alarm.sigaction_ok).retorno ≠ -1 := by
    decide
  refine ⟨?_, ?_, ?_, ?_⟩
  · constructor
    · rintro ⟨g0, r0, h, hg⟩
      unfold Alarm.main_arranque at h
      by_cases hn : n ≤ 0 ∨ n > 3600
      · simp [hn] at h
      · omega
    · intro hn
      have hn2 : ¬ (n ≤ 0 ∨ n > 3600) := by omega
      refine ⟨a_unsigned n, Alarm.configurar_manejadores_senales Alarm.sigaction_ok, ?_, ?_⟩
      · simp [Alarm.main_arranque, hn2, hok]
      · exact a_unsigned_of_range n (by omega) (by omega)
  · intro h
    unfold Alarm.main_arranque at h
    by_cases hn : n ≤ 0 ∨ n > 3600
    · simp [hn] at h
    · simp only [hn, if_false] at h
      by_cases hr : (Alarm.configurar_manejadores_senales sigaction).retorno = -1
      · simp [hr] at h
      · simp only [hr, if_false, Except.ok.injEq, Prod.mk.injEq] at h
        have := a_unsigned_of_range n (by omega) (by omega)
        rw [h.1] at this
        omega
  · intro hn
    have hn2 : n ≤ 0 ∨ n > 3600 := by omega
    simp [Alarm.main, Alarm.main_arranque, hn2]
  · exact ⟨Alarm.configurar_manejadores_senales Alarm.sigaction_ok, by
      simp [Alarm.main_arranque, hok, Alarm.g_segundos_alarma_defecto]⟩

theorem c2_validacion_del_argumento_witness :
    (Alarm.main (some 0) Alarm.sigaction_ok [Alarm.Evento.principal]
        = some { salida := some Alarm.Salida.EXIT_FAILURE,
                 g_segundos_alarma := Alarm.g_segundos_alarma_defecto,
                 llamadas_sigaction := [], instalados := [],
                 alarma_armada := false, iteracion := 0, resultado := none })
    ∧ (Alarm.main (some 3601) Alarm.sigaction_ok [Alarm.Evento.principal]
        = some { salida := some Alarm.Salida.EXIT_FAILURE,
                 g_segundos_alarma := Alarm.g_segundos_alarma_defecto,
                 llamadas_sigaction := [], instalados := [],
                 alarma_armada := false, iteracion := 0, resultado := none })
    ∧ (∃ g0 r0, Alarm.main_arranque (some 5) Alarm.sigaction_ok = Except.ok (g0, r0)
        ∧ (g0 : Int) = 5) :=
  ⟨(c2_validacion_del_argumento 0 Alarm.sigaction_ok [Alarm.Evento.principal] 0
      (Alarm.configurar_manejadores_senales Alarm.sigaction_ok)).2.2.1 (by decide),
   (c2_validacion_del_argumento 3601 Alarm.sigaction_ok [Alarm.Evento.principal] 0
      (Alarm.configurar_manejadores_senales Alarm.sigaction_ok)).2.2.1 (by decide),
   (c2_validacion_del_argumento 5 Alarm.sigaction_ok [Alarm.Evento.principal] 0
      (Alarm.configurar_manejadores_senales Alarm.sigaction_ok)).1.mpr (by decide)⟩

/-! ## Outcome of a run of alarm.c -/

/-- C3 (as stated) fails: the timeout is 2; `main` arms the alarm, performs
two loop iterations and reads `g_alarma_disparada` = 0 in the loop condition;
SIGINT is delivered and, before its handler reaches `alarm(0)`, the timer
expires and the SIGALRM handler runs (sets `g_alarma_disparada`); the SIGINT
handler then cancels and sets `g_interrumpido`; `main` reads
`g_interrumpido` = 1 and leaves the loop because of it, yet the test of line
175 reports TimedOut. -/
theorem c3_counterexample :
    ∃ s1 s2 s3 : Alarm.Estado,
      Alarm.ejecutar (Alarm.estado_inicial 2)
        [Alarm.Evento.principal,
         Alarm.Evento.principal, Alarm.Evento.principal, Alarm.Evento.principal,
         Alarm.Evento.principal, Alarm.Evento.principal, Alarm.Evento.principal,
         Alarm.Evento.principal,
         Alarm.Evento.entrega Alarm.Senal.SIGINT, Alarm.Evento.manejador Alarm.Senal.SIGINT,
         Alarm.Evento.entrega Alarm.Senal.SIGALRM, Alarm.Evento.manejador Alarm.Senal.SIGALRM,
         Alarm.Evento.manejador Alarm.Senal.SIGALRM,
         Alarm.Evento.manejador Alarm.Senal.SIGINT, Alarm.Evento.manejador Alarm.Senal.SIGINT]
        = some s1
      ∧ s1.pc = Alarm.Pc.mientras_int ∧ s1.pila = [] ∧ s1.g_interrumpido = 1
      ∧ s1.iteracion = 2
      ∧ Alarm.paso s1 Alarm.Evento.principal = some s2 ∧ s2.pc = Alarm.Pc.si_alarma
      ∧ Alarm.ejecutar s2 [Alarm.Evento.principal, Alarm.Evento.principal] = some s3
      ∧ s3.pc = Alarm.Pc.terminado
      ∧ s3.resultado = some Alarm.Resultado.TimedOut
      ∧ s3.resultado ≠ some Alarm.Resultado.Interrupted := by
  refine ⟨_, _, _, rfl, ?_, ?_, ?_, ?_, rfl, ?_, rfl, ?_, ?_, ?_⟩ <;> decide

/-- C3 (amended): in a run of alarm.c in which the loop exits because `main`
read `g_interrumpido` set, the outcome is decided by the test of line 175,
which reads `g_alarma_disparada` first: whatever handlers run in between, the
reported outcome is Interrupted when `g_alarma_disparada` is still 0 at that
read, and TimedOut when the SIGALRM handler has set it by then; once reported,
the outcome is never changed by a later handler. -/
theorem c3_informe_tras_interrupcion (d : Nat) (tr0 tr1 tr2 : List Alarm.Evento)
    (s s1 s2 : Alarm.Estado)
    (hrun : Alarm.ejecutar (Alarm.estado_inicial d) tr0 = some s)
    (hpc : s.pc = Alarm.Pc.mientras_int) (hint : s.g_interrumpido ≠ 0)
    (hno : Alarm.Evento.principal ∉ tr1)
    (h1 : Alarm.ejecutar s (Alarm.Evento.principal :: tr1) = some s1)
    (h2 : Alarm.ejecutar s1 (Alarm.Evento.principal :: tr2) = some s2) :
    s1.pc = Alarm.Pc.si_alarma ∧ s1.resultado = none
    ∧ (s1.g_alarma_disparada = 0 →
        s2.resultado ≠ some Alarm.Resultado.TimedOut
        ∧ (s2.pc = Alarm.Pc.final ∨ s2.pc = Alarm.Pc.terminado →
            s2.resultado = some Alarm.Resultado.Interrupted))
    ∧ (s1.g_alarma_disparada ≠ 0 → s2.resultado = some Alarm.Resultado.TimedOut) := by
  have hres : s.resultado = none := by
    have := alarm_ejecutar_inv
      (fun u => u.pc = Alarm.Pc.final ∨ u.pc = Alarm.Pc.terminado ∨ u.resultado = none)
      (fun _ => True) (fun a e b _ ha hab => alarm_paso_sin_informe a b e ha hab)
      tr0 (Alarm.estado_inicial d) s (fun _ _ => trivial)
      (by simp [Alarm.estado_inicial]) hrun
    simpa [hpc] using this
  obtain ⟨u, hp, hu1⟩ := alarm_ejecutar_cons s s1 _ tr1 h1
  have hu : u.pc = Alarm.Pc.si_alarma ∧ u.resultado = none ∧ u.g_interrumpido ≠ 0 := by
    rcases alarm_paso_inv s u _ hp with
      ⟨h0, -⟩ | ⟨h0, -⟩ | ⟨_, h0, -⟩ | ⟨_, h0, -⟩ |
      ⟨_, h0, -⟩ | ⟨_, h0, -⟩ | ⟨_, h0, -⟩ | ⟨-, -, hm⟩
    all_goals try cases h0
    rcases alarm_main_paso_inv s u hm with
      ⟨h0, rfl⟩ | ⟨h0, -, rfl⟩ | ⟨h0, -, rfl⟩ | ⟨h0, -, rfl⟩ | ⟨h0, hz, rfl⟩ | ⟨h0, rfl⟩ |
      ⟨h0, hne, rfl⟩ | ⟨h0, -, rfl⟩ | ⟨h0, hne, rfl⟩ | ⟨h0, hz, rfl⟩ | ⟨h0, rfl⟩ <;>
      simp_all
  have hs1 := alarm_ejecutar_inv
    (fun a => a.pc = Alarm.Pc.si_alarma ∧ a.resultado = none ∧ a.g_interrumpido ≠ 0)
    (fun e => e ≠ Alarm.Evento.principal)
    (fun a e b he ha hab => alarm_paso_manejadores _ _ a b e he ha hab)
    tr1 u s1 (fun e he heq => hno (heq ▸ he)) hu hu1
  obtain ⟨v, hq, hv2⟩ := alarm_ejecutar_cons s1 s2 _ tr2 h2
  have hm : Alarm.main_paso s1 = some v := by
    rcases alarm_paso_inv s1 v _ hq with
      ⟨h0, -⟩ | ⟨h0, -⟩ | ⟨_, h0, -⟩ | ⟨_, h0, -⟩ |
      ⟨_, h0, -⟩ | ⟨_, h0, -⟩ | ⟨_, h0, -⟩ | ⟨-, -, hm⟩
    all_goals try cases h0
    exact hm
  refine ⟨hs1.1, hs1.2.1, ?_, ?_⟩
  · intro hz
    have hv : (v.pc = Alarm.Pc.si_int ∧ v.g_interrumpido ≠ 0 ∧ v.resultado = none)
        ∨ ((v.pc = Alarm.Pc.final ∨ v.pc = Alarm.Pc.terminado)
          ∧ v.resultado = some Alarm.Resultado.Interrupted) := by
      rcases alarm_main_paso_inv s1 v hm with
        ⟨h0, rfl⟩ | ⟨h0, -, rfl⟩ | ⟨h0, -, rfl⟩ | ⟨h0, -, rfl⟩ | ⟨h0, -, rfl⟩ | ⟨h0, rfl⟩ |
        ⟨h0, hne, rfl⟩ | ⟨h0, -, rfl⟩ | ⟨h0, hne, rfl⟩ | ⟨h0, -, rfl⟩ | ⟨h0, rfl⟩ <;>
        simp_all
    have hf := alarm_ejecutar_inv
      (fun a => (a.pc = Alarm.Pc.si_int ∧ a.g_interrumpido ≠ 0 ∧ a.resultado = none)
        ∨ ((a.pc = Alarm.Pc.final ∨ a.pc = Alarm.Pc.terminado)
          ∧ a.resultado = some Alarm.Resultado.Interrupted))
      (fun _ => True) (fun a e b _ ha hab => alarm_paso_interrumpido a b e ha hab)
      tr2 v s2 (fun _ _ => trivial) hv hv2
    rcases hf with ⟨f1, -, f3⟩ | ⟨-, f2⟩
    · refine ⟨by simp [f3], ?_⟩
      intro hfin
      rcases hfin with hfin | hfin <;> simp [f1] at hfin
    · exact ⟨by simp [f2], fun _ => f2⟩
  · intro hnz
    have hv : v.resultado = some Alarm.Resultado.TimedOut
        ∧ (v.pc = Alarm.Pc.final ∨ v.pc = Alarm.Pc.terminado) := by
      rcases alarm_main_paso_inv s1 v hm with
        ⟨h0, rfl⟩ | ⟨h0, -, rfl⟩ | ⟨h0, -, rfl⟩ | ⟨h0, -, rfl⟩ | ⟨h0, -, rfl⟩ | ⟨h0, rfl⟩ |
        ⟨h0, hne, rfl⟩ | ⟨h0, hz, rfl⟩ | ⟨h0, hne, rfl⟩ | ⟨h0, -, rfl⟩ | ⟨h0, rfl⟩ <;>
        simp_all
    exact (alarm_ejecutar_inv
      (fun a => a.resultado = some Alarm.Resultado.TimedOut
        ∧ (a.pc = Alarm.Pc.final ∨ a.pc = Alarm.Pc.terminado))
      (fun _ => True) (fun a e b _ ha hab => alarm_paso_timedout a b e ha hab)
      tr2 v s2 (fun _ _ => trivial) hv hv2).1

theorem c3_informe_tras_interrupcion_witness :
    Alarm.ejemplo_cancelado.pc = Alarm.Pc.si_alarma
    ∧ Alarm.ejemplo_cancelado.resultado = none
    ∧ Alarm.ejemplo_interrumpido.resultado ≠ some Alarm.Resultado.TimedOut
    ∧ Alarm.ejemplo_interrumpido.resultado = some Alarm.Resultado.Interrupted :=
  ⟨(c3_informe_tras_interrupcion 10
      [Alarm.Evento.principal, Alarm.Evento.principal,
       Alarm.Evento.entrega Alarm.Senal.SIGINT, Alarm.Evento.manejador Alarm.Senal.SIGINT,
       Alarm.Evento.manejador Alarm.Senal.SIGINT, Alarm.Evento.manejador Alarm.Senal.SIGINT]
      [] [Alarm.Evento.principal, Alarm.Evento.principal]
      Alarm.ejemplo_salida_bucle Alarm.ejemplo_cancelado Alarm.ejemplo_interrumpido
      (by decide) (by decide) (by decide) (by decide) (by decide) (by decide)).1,
   (c3_informe_tras_interrupcion 10
      [Alarm.Evento.principal, Alarm.Evento.principal,
       Alarm.Evento.entrega Alarm.Senal.SIGINT, Alarm.Evento.manejador Alarm.Senal.SIGINT,
       Alarm.Evento.manejador Alarm.Senal.SIGINT, Alarm.Evento.manejador Alarm.Senal.SIGINT]
      [] [Alarm.Evento.principal, Alarm.Evento.principal]
      Alarm.ejemplo_salida_bucle Alarm.ejemplo_cancelado Alarm.ejemplo_interrumpido
      (by decide) (by decide) (by decide) (by decide) (by decide) (by decide)).2.1,
   ((c3_informe_tras_interrupcion 10
      [Alarm.Evento.principal, Alarm.Evento.principal,
       Alarm.Evento.entrega Alarm.Senal.SIGINT, Alarm.Evento.manejador Alarm.Senal.SIGINT,
       Alarm.Evento.manejador Alarm.Senal.SIGINT, Alarm.Evento.manejador Alarm.Senal.SIGINT]
      [] [Alarm.Evento.principal, Alarm.Evento.principal]
      Alarm.ejemplo_salida_bucle Alarm.ejemplo_cancelado Alarm.ejemplo_interrumpido
      (by decide) (by decide) (by decide) (by decide) (by decide) (by decide)).2.2.1
      (by decide)).1,
   ((c3_informe_tras_interrupcion 10
      [Alarm.Evento.principal, Alarm.Evento.principal,
       Alarm.Evento.entrega Alarm.Senal.SIGINT, Alarm.Evento.manejador Alarm.Senal.SIGINT,
       Alarm.Evento.manejador Alarm.Senal.SIGINT, Alarm.Evento.manejador Alarm.Senal.SIGINT]
      [] [Alarm.Evento.principal, Alarm.Evento.principal]
      Alarm.ejemplo_salida_bucle Alarm.ejemplo_cancelado Alarm.ejemplo_interrumpido
      (by decide) (by decide) (by decide) (by decide) (by decide) (by decide)).2.2.1
      (by decide)).2 (by decide)⟩

/-! ## Flags are never cleared -/

/-- C4: for every state of either program and every sequence of steps from it
(deliveries of signals, statements of handlers, statements of `main`; a single
step is a sequence of one event, a loop iteration a sequence of several), a
flag that is set stays set: in alarm.c `g_alarma_disparada` and
`g_interrumpido` do not go from 1 back to 0, in signals.c
`g_seguir_ejecutando` does not go from 0 back to 1. -/
theorem c4_banderas_no_se_limpian (sa ta : Alarm.Estado) (tra : List Alarm.Evento)
    (ss ts : Signals.Estado) (trs : List Signals.Evento) :
    (Alarm.ejecutar sa tra = some ta →
      (sa.g_alarma_disparada = 1 → ta.g_alarma_disparada = 1)
      ∧ (sa.g_interrumpido = 1 → ta.g_interrumpido = 1))
    ∧ (Signals.ejecutar ss trs = some ts →
      (ss.g_seguir_ejecutando = 0 → ts.g_seguir_ejecutando = 0)) := by
  constructor
  · intro h
    exact alarm_ejecutar_inv
      (fun u => (sa.g_alarma_disparada = 1 → u.g_alarma_disparada = 1)
        ∧ (sa.g_interrumpido = 1 → u.g_interrumpido = 1))
      (fun _ => True)
      (fun a e b _ ha hab =>
        ⟨fun h1 => (alarm_paso_banderas a b e hab).1 (ha.1 h1),
         fun h1 => (alarm_paso_banderas a b e hab).2 (ha.2 h1)⟩)
      tra sa ta (fun _ _ => trivial) ⟨id, id⟩ h
  · intro h
    exact signals_ejecutar_inv
      (fun u => ss.g_seguir_ejecutando = 0 → u.g_seguir_ejecutando = 0)
      (fun a e b ha hab h1 => signals_paso_bandera a b e hab (ha h1))
      trs ss ts id h

theorem c4_banderas_no_se_limpian_witness :
    (Alarm.ejemplo_ambas_int.g_alarma_disparada = 1
      ∧ Alarm.ejemplo_ambas_int.g_interrumpido = 1)
    ∧ Signals.ejemplo_parado_int.g_seguir_ejecutando = 0 :=
  ⟨⟨((c4_banderas_no_se_limpian Alarm.ejemplo_ambas Alarm.ejemplo_ambas_int
        [Alarm.Evento.entrega Alarm.Senal.SIGINT]
        Signals.ejemplo_parado Signals.ejemplo_parado_int
        [Signals.Evento.entrega Signals.Senal.SIGINT]).1 (by decide)).1 (by decide),
     ((c4_banderas_no_se_limpian Alarm.ejemplo_ambas Alarm.ejemplo_ambas_int
        [Alarm.Evento.entrega Alarm.Senal.SIGINT]
        Signals.ejemplo_parado Signals.ejemplo_parado_int
        [Signals.Evento.entrega Signals.Senal.SIGINT]).1 (by decide)).2 (by decide)⟩,
   (c4_banderas_no_se_limpian Alarm.ejemplo_ambas Alarm.ejemplo_ambas_int
      [Alarm.Evento.entrega Alarm.Senal.SIGINT]
      Signals.ejemplo_parado Signals.ejemplo_parado_int
      [Signals.Evento.entrega Signals.Senal.SIGINT]).2 (by decide) (by decide)⟩

/-! ## Cancellation before delivery -/

/-- C5: in a run of alarm.c from the registration of the handlers, let the
alarm be armed and let the SIGINT handler execute `alarm(0)` while no SIGALRM
has been delivered so far; then in every later reachable state
`g_alarma_disparada` is still 0, no alarm is pending and the reported outcome
is not TimedOut. -/
theorem c5_cancelacion_antes_de_entrega (d : Nat) (tr tr2 : List Alarm.Evento)
    (s s2 : Alarm.Estado) (resto : List Alarm.Marco)
    (hrun : Alarm.ejecutar (Alarm.estado_inicial d) tr = some s)
    (hno : Alarm.Evento.entrega Alarm.Senal.SIGALRM ∉ tr)
    (harm : s.pc ≠ Alarm.Pc.armar)
    (htop : s.pila = Alarm.Marco.int_alarm0 :: resto)
    (h2 : Alarm.ejecutar s (Alarm.Evento.manejador Alarm.Senal.SIGINT :: tr2) = some s2) :
    s2.g_alarma_disparada = 0 ∧ s2.alarma_pendiente = false
      ∧ s2.resultado ≠ some Alarm.Resultado.TimedOut
      ∧ Alarm.paso s2 (Alarm.Evento.entrega Alarm.Senal.SIGALRM) = none := by
  have h1 := alarm_ejecutar_inv
    (fun u => u.g_alarma_disparada = 0 ∧ Alarm.bloqueada Alarm.Senal.SIGALRM u.pila = false
      ∧ u.resultado ≠ some Alarm.Resultado.TimedOut)
    (fun e => e ≠ Alarm.Evento.entrega Alarm.Senal.SIGALRM)
    (fun u e t he hu hp => alarm_paso_sin_entrega u t e he hu hp)
    tr (Alarm.estado_inicial d) s
    (fun e he heq => hno (heq ▸ he))
    (by simp [Alarm.estado_inicial, Alarm.bloqueada]) hrun
  obtain ⟨u, hp, hu2⟩ := alarm_ejecutar_cons s s2 _ tr2 h2
  have hu : (u.g_alarma_disparada = 0 ∧ Alarm.bloqueada Alarm.Senal.SIGALRM u.pila = false
      ∧ u.resultado ≠ some Alarm.Resultado.TimedOut)
      ∧ u.alarma_pendiente = false ∧ u.pc ≠ Alarm.Pc.armar := by
    refine ⟨alarm_paso_sin_entrega s u _ (by simp) h1 hp, ?_⟩
    simp only [Alarm.paso, htop, Alarm.Marco.senal, if_true, Alarm.manejador_sigint,
      Option.some.injEq] at hp
    subst hp
    exact ⟨rfl, harm⟩
  have hf := alarm_ejecutar_inv
    (fun u => (u.g_alarma_disparada = 0 ∧ Alarm.bloqueada Alarm.Senal.SIGALRM u.pila = false
      ∧ u.resultado ≠ some Alarm.Resultado.TimedOut)
      ∧ u.alarma_pendiente = false ∧ u.pc ≠ Alarm.Pc.armar)
    (fun _ => True)
    (fun a e b _ ha hab => alarm_paso_cancelada a b e ha hab)
    tr2 u s2 (fun _ _ => trivial) hu hu2
  refine ⟨hf.1.1, hf.2.1, hf.1.2.2, ?_⟩
  simp [Alarm.paso, hf.2.1]

theorem c5_cancelacion_antes_de_entrega_witness :
    Alarm.ejemplo_cancelado.g_alarma_disparada = 0
      ∧ Alarm.ejemplo_cancelado.alarma_pendiente = false
      ∧ Alarm.ejemplo_cancelado.resultado ≠ some Alarm.Resultado.TimedOut
      ∧ Alarm.paso Alarm.ejemplo_cancelado (Alarm.Evento.entrega Alarm.Senal.SIGALRM) = none :=
  c5_cancelacion_antes_de_entrega 10
    [Alarm.Evento.principal, Alarm.Evento.entrega Alarm.Senal.SIGINT,
     Alarm.Evento.manejador Alarm.Senal.SIGINT]
    [Alarm.Evento.manejador Alarm.Senal.SIGINT, Alarm.Evento.principal, Alarm.Evento.principal]
    Alarm.ejemplo_por_cancelar Alarm.ejemplo_cancelado []
    (by decide) (by decide) (by decide) rfl (by decide)

/-! ## Ignored notifications in signals.c -/

/-- C6: for every run of signals.c, whatever the number of SIGINT
notifications delivered and wherever they are delivered (also while `main` is
inside `sleep(2)`), the same run with zero SIGINT notifications is a run of the
program and ends with the same flag, the same `contador` and at the same
control point of `main`; and no event of the SIGINT handler changes the flag,
`contador` or the control point. -/
theorem c6_sigint_no_interfiere (tr : List Signals.Evento) (s u v : Signals.Estado)
    (e : Signals.Evento) :
    (Signals.ejecutar Signals.estado_inicial tr = some s →
      Signals.num_sigint (Signals.sin_sigint tr) = 0
      ∧ ∃ s0, Signals.ejecutar Signals.estado_inicial (Signals.sin_sigint tr) = some s0
          ∧ s0.g_seguir_ejecutando = s.g_seguir_ejecutando
          ∧ s0.contador = s.contador ∧ s0.pc = s.pc
          ∧ (s.pc = Signals.Pc.terminado → s0 = s))
    ∧ (Signals.es_sigint e = true → Signals.paso u e = some v →
        v.g_seguir_ejecutando = u.g_seguir_ejecutando ∧ v.contador = u.contador
        ∧ v.pc = u.pc) := by
  constructor
  · intro h
    refine ⟨signals_num_sigint_sin_sigint tr, Signals.sin_marcos_sigint s, ?_, rfl, rfl, rfl, ?_⟩
    · exact signals_ejecutar_sim tr Signals.estado_inicial s h
    · intro hfin
      have hpila := signals_ejecutar_inv (fun a => a.pc = Signals.Pc.terminado → a.pila = [])
        (fun a e b ha hab => signals_paso_terminado a b e ha hab)
        tr Signals.estado_inicial s (fun _ => rfl) h hfin
      rcases s with ⟨g, c, pc, pila⟩
      simp only at hpila
      subst hpila
      rfl
  · intro he hp
    rcases signals_paso_inv u v e hp with
      ⟨rfl, -, -, rfl⟩ | ⟨rfl, -, -, rfl⟩ | ⟨resto, rfl, -, rfl⟩ | ⟨resto, rfl, -, rfl⟩ |
      ⟨resto, rfl, -, rfl⟩ | ⟨rfl, -, -⟩ <;>
      simp_all [Signals.es_sigint]

theorem c6_sigint_no_interfiere_witness :
    (Signals.num_sigint (Signals.sin_sigint
        [Signals.Evento.principal, Signals.Evento.principal,
         Signals.Evento.entrega Signals.Senal.SIGINT,
         Signals.Evento.manejador Signals.Senal.SIGINT,
         Signals.Evento.principal]) = 0
      ∧ ∃ s0, Signals.ejecutar Signals.estado_inicial (Signals.sin_sigint
          [Signals.Evento.principal, Signals.Evento.principal,
           Signals.Evento.entrega Signals.Senal.SIGINT,
           Signals.Evento.manejador Signals.Senal.SIGINT,
           Signals.Evento.principal]) = some s0
          ∧ s0.g_seguir_ejecutando = Signals.ejemplo_tras_dormir.g_seguir_ejecutando
          ∧ s0.contador = Signals.ejemplo_tras_dormir.contador
          ∧ s0.pc = Signals.ejemplo_tras_dormir.pc
          ∧ (Signals.ejemplo_tras_dormir.pc = Signals.Pc.terminado
              → s0 = Signals.ejemplo_tras_dormir))
    ∧ (Signals.ejemplo_en_manejador.g_seguir_ejecutando
          = Signals.ejemplo_dormido.g_seguir_ejecutando
        ∧ Signals.ejemplo_en_manejador.contador = Signals.ejemplo_dormido.contador
        ∧ Signals.ejemplo_en_manejador.pc = Signals.ejemplo_dormido.pc) :=
  ⟨(c6_sigint_no_interfiere
      [Signals.Evento.principal, Signals.Evento.principal,
       Signals.Evento.entrega Signals.Senal.SIGINT,
       Signals.Evento.manejador Signals.Senal.SIGINT,
       Signals.Evento.principal]
      Signals.ejemplo_tras_dormir Signals.ejemplo_dormido Signals.ejemplo_en_manejador
      (Signals.Evento.entrega Signals.Senal.SIGINT)).1 (by decide),
   (c6_sigint_no_interfiere [] Signals.ejemplo_tras_dormir Signals.ejemplo_dormido
      Signals.ejemplo_en_manejador (Signals.Evento.entrega Signals.Senal.SIGINT)).2
      (by decide) (by decide)⟩

/-! ## Remaining time: monotonicity -/

/-- C7 (as stated) fails: with d = 1 and start = 2^32 the value returned at
t1 = 1 is 0 and the value returned at the later time t2 = 2 is 2^32 − 1. -/
theorem c7_counterexample :
    (1 : Int) ≤ 2 ∧
    ¬ (Alarm.obtener_tiempo_restante 1 4294967296 2
        ≤ Alarm.obtener_tiempo_restante 1 4294967296 1) := by
  decide

/-- C7 (amended): for a fixed start time and duration d in [1, 3600], for
every two observation times t1 ≤ t2 with d − (t1 − start) < 2^32 (in
particular whenever t1 ≥ start) the value returned at t2 is ≤ the value
returned at t1, and the value is exactly 0 at every time t ≥ start + d. -/
theorem c7_tiempo_restante_monotono (d : Nat) (inicio t1 t2 t : Int)
    (hd1 : 1 ≤ d) (hd2 : d ≤ 3600) :
    (t1 ≤ t2 → (d : Int) - (t1 - inicio) < 4294967296 →
      Alarm.obtener_tiempo_restante d inicio t2 ≤ Alarm.obtener_tiempo_restante d inicio t1)
    ∧ (inicio + (d : Int) ≤ t → Alarm.obtener_tiempo_restante d inicio t = 0) := by
  constructor
  · intro h12 hfit
    have e1 := alarm_tiempo_restante_eq d inicio t1 hfit
    have e2 := alarm_tiempo_restante_eq d inicio t2 (by omega)
    have : (Alarm.obtener_tiempo_restante d inicio t2 : Int)
        ≤ (Alarm.obtener_tiempo_restante d inicio t1 : Int) := by
      rw [e1, e2]
      exact max_le_max (le_refl 0) (by omega)
    exact_mod_cast this
  · intro ht
    unfold Alarm.obtener_tiempo_restante
    have h : t - inicio ≥ (d : Int) := by omega
    simp only [h, if_true]

theorem c7_tiempo_restante_monotono_witness :
    Alarm.obtener_tiempo_restante 10 1000 1007 ≤ Alarm.obtener_tiempo_restante 10 1000 1003
    ∧ Alarm.obtener_tiempo_restante 10 1000 1010 = 0 :=
  ⟨(c7_tiempo_restante_monotono 10 1000 1003 1007 1010 (by decide) (by decide)).1
      (by decide) (by decide),
   (c7_tiempo_restante_monotono 10 1000 1003 1007 1010 (by decide) (by decide)).2 (by decide)⟩

/-! ## Registration failures -/

/-- C9: in both programs `configurar_manejadores_senales` returns 0 exactly
when neither `sigaction` call is refused and -1 otherwise; when the first
registration is refused `sigaction` has been called once, for that signal
only; when the second is refused each signal has been tried exactly once; and
when it returns -1, `main` ends with EXIT_FAILURE whatever happens next, with
the alarm not armed and no loop iteration performed. -/
theorem c9_registro_fallido (sa : Alarm.Senal → Int) (ss : Signals.Senal → Int)
    (argv1 : Option Int) (tra : List Alarm.Evento) (trs : List Signals.Evento) :
    (((Alarm.configurar_manejadores_senales sa).retorno = 0
        ↔ (sa Alarm.Senal.SIGALRM ≠ -1 ∧ sa Alarm.Senal.SIGINT ≠ -1))
      ∧ ((Alarm.configurar_manejadores_senales sa).retorno = 0
        ∨ (Alarm.configurar_manejadores_senales sa).retorno = -1)
      ∧ (sa Alarm.Senal.SIGALRM = -1 →
          Alarm.configurar_manejadores_senales sa
            = { retorno := -1, llamadas := [Alarm.Senal.SIGALRM], instalados := [] })
      ∧ (sa Alarm.Senal.SIGALRM ≠ -1 → sa Alarm.Senal.SIGINT = -1 →
          Alarm.configurar_manejadores_senales sa
            = { retorno := -1, llamadas := [Alarm.Senal.SIGALRM, Alarm.Senal.SIGINT],
                instalados := [Alarm.Senal.SIGALRM] })
      ∧ ((Alarm.configurar_manejadores_senales sa).retorno = -1 →
          ∃ p, Alarm.main argv1 sa tra = some p
            ∧ p.salida = some Alarm.Salida.EXIT_FAILURE
            ∧ p.alarma_armada = false ∧ p.iteracion = 0 ∧ p.resultado = none))
    ∧ (((Signals.configurar_manejadores_senales ss).retorno = 0
        ↔ (ss Signals.Senal.SIGTERM ≠ -1 ∧ ss Signals.Senal.SIGINT ≠ -1))
      ∧ ((Signals.configurar_manejadores_senales ss).retorno = 0
        ∨ (Signals.configurar_manejadores_senales ss).retorno = -1)
      ∧ (ss Signals.Senal.SIGTERM = -1 →
          Signals.configurar_manejadores_senales ss
            = { retorno := -1, llamadas := [Signals.Senal.SIGTERM], instalados := [] })
      ∧ (ss Signals.Senal.SIGTERM ≠ -1 → ss Signals.Senal.SIGINT = -1 →
          Signals.configurar_manejadores_senales ss
            = { retorno := -1, llamadas := [Signals.Senal.SIGTERM, Signals.Senal.SIGINT],
                instalados := [Signals.Senal.SIGTERM] })
      ∧ ((Signals.configurar_manejadores_senales ss).retorno = -1 →
          ∃ p, Signals.main ss trs = some p
            ∧ p.salida = some Signals.Salida.EXIT_FAILURE ∧ p.contador = 0)) := by
  constructor
  · refine ⟨?_, ?_, ?_, ?_, ?_⟩
    · unfold Alarm.configurar_manejadores_senales
      by_cases h1 : sa Alarm.Senal.SIGALRM = -1 <;> by_cases h2 : sa Alarm.Senal.SIGINT = -1 <;>
        simp [h1, h2]
    · unfold Alarm.configurar_manejadores_senales
      by_cases h1 : sa Alarm.Senal.SIGALRM = -1 <;> by_cases h2 : sa Alarm.Senal.SIGINT = -1 <;>
        simp [h1, h2]
    · intro h1
      simp [Alarm.configurar_manejadores_senales, h1]
    · intro h1 h2
      simp [Alarm.configurar_manejadores_senales, h1, h2]
    · intro hr
      unfold Alarm.main Alarm.main_arranque
      cases argv1 with
      | none => simp [hr]
      | some n =>
          by_cases hn : n ≤ 0 ∨ n > 3600
          · simp [hn]
          · simp [hn, hr]
  · refine ⟨?_, ?_, ?_, ?_, ?_⟩
    · unfold Signals.configurar_manejadores_senales
      by_cases h1 : ss Signals.Senal.SIGTERM = -1 <;>
        by_cases h2 : ss Signals.Senal.SIGINT = -1 <;> simp [h1, h2]
    · unfold Signals.configurar_manejadores_senales
      by_cases h1 : ss Signals.Senal.SIGTERM = -1 <;>
        by_cases h2 : ss Signals.Senal.SIGINT = -1 <;> simp [h1, h2]
    · intro h1
      simp [Signals.configurar_manejadores_senales, h1]
    · intro h1 h2
      simp [Signals.configurar_manejadores_senales, h1, h2]
    · intro hr
      simp [Signals.main, hr]

theorem c9_registro_fallido_witness :
    (Alarm.configurar_manejadores_senales Alarm.sigaction_sin_sigint
        = { retorno := -1, llamadas := [Alarm.Senal.SIGALRM, Alarm.Senal.SIGINT],
            instalados := [Alarm.Senal.SIGALRM] }
      ∧ ∃ p, Alarm.main (some 5) Alarm.sigaction_sin_sigint [Alarm.Evento.principal] = some p
          ∧ p.salida = some Alarm.Salida.EXIT_FAILURE
          ∧ p.alarma_armada = false ∧ p.iteracion = 0 ∧ p.resultado = none)
    ∧ (Signals.configurar_manejadores_senales Signals.sigaction_sin_sigterm
        = { retorno := -1, llamadas := [Signals.Senal.SIGTERM], instalados := [] }
      ∧ ∃ p, Signals.main Signals.sigaction_sin_sigterm [Signals.Evento.principal] = some p
          ∧ p.salida = some Signals.Salida.EXIT_FAILURE ∧ p.contador = 0) :=
  ⟨⟨(c9_registro_fallido Alarm.sigaction_sin_sigint Signals.sigaction_sin_sigterm (some 5)
        [Alarm.Evento.principal] [Signals.Evento.principal]).1.2.2.2.1
        (by decide) (by decide),
     (c9_registro_fallido Alarm.sigaction_sin_sigint Signals.sigaction_sin_sigterm (some 5)
        [Alarm.Evento.principal] [Signals.Evento.principal]).1.2.2.2.2 (by decide)⟩,
   ⟨(c9_registro_fallido Alarm.sigaction_sin_sigint Signals.sigaction_sin_sigterm (some 5)
        [Alarm.Evento.principal] [Signals.Evento.principal]).2.2.2.1 (by decide),
     (c9_registro_fallido Alarm.sigaction_sin_sigint Signals.sigaction_sin_sigterm (some 5)
        [Alarm.Evento.principal] [Signals.Evento.principal]).2.2.2.2.2 (by decide)⟩⟩


/-! ## Remaining time: printed elapsed seconds -/

/-- C10 (as stated) fails in its last part: with d = 10, start = 2^32 and
now = 0 the clock has stepped backwards, yet the returned value is 10, which
does not exceed d, and the printed subtraction is 0 (no wrap-around). -/
theorem c10_counterexample :
    (0 : Int) < 4294967296 ∧
    ¬ (10 < Alarm.obtener_tiempo_restante 10 4294967296 0) ∧
    (Alarm.mostrar_progreso 10 (Alarm.obtener_tiempo_restante 10 4294967296 0)).1 = 0 := by
  decide

/-- C10 (amended): for every d in [1, 3600] and every now ≥ start the returned
value r satisfies 0 ≤ r ≤ d and the unsigned subtraction printed by
`mostrar_progreso` is exactly d − r, in [0, d]; when now < start with
start − now < 2^32 − d, r = d + (start − now) exceeds d and the printed
subtraction is d − r + 2^32 (it wraps modulo 2^32). -/
theorem c10_transcurrido_sin_desborde (d : Nat) (inicio ahora : Int)
    (hd1 : 1 ≤ d) (hd2 : d ≤ 3600) :
    (inicio ≤ ahora →
      Alarm.obtener_tiempo_restante d inicio ahora ≤ d
      ∧ (Alarm.mostrar_progreso d (Alarm.obtener_tiempo_restante d inicio ahora)).1
          + Alarm.obtener_tiempo_restante d inicio ahora = d
      ∧ (Alarm.mostrar_progreso d (Alarm.obtener_tiempo_restante d inicio ahora)).1 ≤ d)
    ∧ (ahora < inicio → inicio - ahora < 4294967296 - (d : Int) →
      (Alarm.obtener_tiempo_restante d inicio ahora : Int) = (d : Int) + (inicio - ahora)
      ∧ d < Alarm.obtener_tiempo_restante d inicio ahora
      ∧ ((Alarm.mostrar_progreso d (Alarm.obtener_tiempo_restante d inicio ahora)).1 : Int)
          = (d : Int) - (Alarm.obtener_tiempo_restante d inicio ahora : Int) + 4294967296) := by
  constructor
  · intro h
    have e := alarm_tiempo_restante_eq d inicio ahora (by omega)
    have hr0 : (0 : Int) ≤ (Alarm.obtener_tiempo_restante d inicio ahora : Int) :=
      Int.ofNat_nonneg _
    have hr : (Alarm.obtener_tiempo_restante d inicio ahora : Int) ≤ (d : Int) := by
      rw [e]; exact max_le (by omega) (by omega)
    have hm := a_unsigned_of_range
      ((d : Int) - (Alarm.obtener_tiempo_restante d inicio ahora : Int)) (by omega) (by omega)
    simp only [Alarm.mostrar_progreso]
    omega
  · intro h hk
    have e := alarm_tiempo_restante_eq d inicio ahora (by omega)
    rw [max_eq_right (by omega)] at e
    have hm := a_unsigned_of_range
      ((d : Int) - (Alarm.obtener_tiempo_restante d inicio ahora : Int) + 4294967296)
      (by omega) (by omega)
    have hmod : a_unsigned ((d : Int) - (Alarm.obtener_tiempo_restante d inicio ahora : Int)
        + 4294967296)
        = a_unsigned ((d : Int) - (Alarm.obtener_tiempo_restante d inicio ahora : Int)) := by
      unfold a_unsigned UINT_MOD
      congr 1
      omega
    simp only [Alarm.mostrar_progreso]
    rw [← hmod]
    omega

theorem c10_transcurrido_sin_desborde_witness :
    (Alarm.obtener_tiempo_restante 10 1000 1003 ≤ 10
      ∧ (Alarm.mostrar_progreso 10 (Alarm.obtener_tiempo_restante 10 1000 1003)).1
          + Alarm.obtener_tiempo_restante 10 1000 1003 = 10
      ∧ (Alarm.mostrar_progreso 10 (Alarm.obtener_tiempo_restante 10 1000 1003)).1 ≤ 10)
    ∧ ((Alarm.obtener_tiempo_restante 10 1000 998 : Int) = ((10 : Nat) : Int) + (1000 - 998)
      ∧ 10 < Alarm.obtener_tiempo_restante 10 1000 998
      ∧ ((Alarm.mostrar_progreso 10 (Alarm.obtener_tiempo_restante 10 1000 998)).1 : Int)
          = ((10 : Nat) : Int) - (Alarm.obtener_tiempo_restante 10 1000 998 : Int) + 4294967296) :=
  ⟨(c10_transcurrido_sin_desborde 10 1000 1003 (by decide) (by decide)).1 (by decide),
   (c10_transcurrido_sin_desborde 10 1000 998 (by decide) (by decide)).2 (by decide) (by decide)⟩

